import Mathlib

/-!
Verification development for the TinyTranscriptor audio pipeline.

The definitions below are a shallow embedding of the repository's core logic:

* the signal-conditioning pipeline of `transcribeAudio`
  (src/App.tsx revision in src/unnamed/part_002, lines 288-347) and of
  `transcribe` (src/src/hooks/useTranscription.ts, lines 104-150);
* the model session manager `initializeTranscriber`
  (src/src/hooks/useTranscription.ts, lines 26-82);
* the transcription orchestrator `transcribeAudio`
  (src/unnamed/part_002, lines 222-487);
* the recording capturer's stop handler and `cleanupRecording`
  (src/unnamed/part_002, lines 133-179; src/src/hooks/useTranscription.ts,
  lines 228-235).

Audio samples are modelled as rationals (the code uses IEEE doubles/floats;
the decimal thresholds 0.0001, 0.1, 0.5, 30 of the code are modelled by the
exact rationals they denote).  Browser collaborators (the OfflineAudioContext
resampler, the transformers.js `pipeline` constructor, the loaded callable)
are modelled as function parameters; the only assumption made about the
resampler is the Web Audio guarantee that an `OfflineAudioContext`
constructed with a given frame count renders a buffer of exactly that
length.
-/

deriving instance DecidableEq for Except

namespace TinyTranscriptor

/-- Decoded audio as handed back by `decodeAudioData`: the first channel's
sample data (the code only ever reads `getChannelData(0)`) and the decoder's
native sample rate. -/
structure DecodedInput where
  channelData : List ℚ
  sampleRate : ℕ
deriving DecidableEq

/-- Duration in seconds of a decoded buffer, `AudioBuffer.duration`,
which is sample count divided by sample rate. -/
def durationSeconds (a : DecodedInput) : ℚ :=
  (a.channelData.length : ℚ) / (a.sampleRate : ℚ)

/-- Whisper's fixed target rate, the literal `targetSampleRate = 16000` of
`transcribeAudio`. -/
def targetSampleRate : ℕ := 16000

/-- Model of the `OfflineAudioContext` rendering collaborator.  `render`
takes the source channel data, the source rate and the requested frame
count (the constructor's `length` argument); `render_length` is the Web
Audio guarantee that the rendered buffer has exactly the requested number
of frames. -/
structure OfflineResampler where
  render : List ℚ → ℕ → ℕ → List ℚ
  render_length : ∀ xs fromRate outLen, (render xs fromRate outLen).length = outLen

/-- Resampler that renders a constant buffer of the requested length; used
to instantiate theorems at concrete inputs. -/
def constRs (q : ℚ) : OfflineResampler :=
  ⟨fun _ _ n => List.replicate n q, fun _ _ n => List.length_replicate n q⟩

/-- Mono channel extraction plus conditional resampling, mirroring
`transcribeAudio` lines 309-320: when the native rate differs from 16000 Hz
an `OfflineAudioContext(1, Math.ceil(duration * 16000), 16000)` render is
used, otherwise `getChannelData(0)` is used as is. -/
def resampledData (rs : OfflineResampler) (a : DecodedInput) : List ℚ :=
  if a.sampleRate ≠ targetSampleRate then
    rs.render a.channelData a.sampleRate (⌈durationSeconds a * (targetSampleRate : ℚ)⌉.toNat)
  else a.channelData

/-- Peak amplitude `Math.max(...audioData.map(Math.abs))` of
`transcribeAudio` line 323 (folded with 0, which agrees with the code on
every nonempty buffer since absolute values are nonnegative). -/
def maxAmplitude (xs : List ℚ) : ℚ :=
  xs.foldr (fun x m => max |x| m) 0

/-- Failure outcomes of the conditioning pipeline (the `setError` early
returns of `transcribeAudio` lines 292-347). -/
inductive CondError where
  | tooLong
  | tooShort
  | signalTooWeak
  | emptyProcessed
  | tooShortProcessed
deriving DecidableEq

/-- Conditioned audio: the processed Float32 buffer and its rate. -/
structure ConditionedAudio where
  samples : List ℚ
  sampleRate : ℕ
deriving DecidableEq

/-- The conditioning pipeline of `transcribeAudio` (src/unnamed/part_002,
lines 288-347): duration gates (`> 30` then `< 0.1`), channel-0 extraction
and resampling, silence gate (`maxAmplitude < 0.0001`), quiet-signal
normalization (`maxAmplitude > 0.0001 && maxAmplitude < 0.1`, scale by
`0.5 / maxAmplitude`), then the emptiness and 160-sample minimum gates. -/
def condition (rs : OfflineResampler) (a : DecodedInput) : Except CondError ConditionedAudio :=
  let d := durationSeconds a
  if 30 < d then .error .tooLong
  else if d < 1/10 then .error .tooShort
  else
    let audioData := resampledData rs a
    let maxAmp := maxAmplitude audioData
    if maxAmp < 1/10000 then .error .signalTooWeak
    else
      let audioData2 :=
        if 1/10000 < maxAmp ∧ maxAmp < 1/10 then
          audioData.map (fun x => x * (1/2 / maxAmp))
        else audioData
      if audioData2.length = 0 then .error .emptyProcessed
      else if audioData2.length < 160 then .error .tooShortProcessed
      else .ok ⟨audioData2, targetSampleRate⟩

/-- Samples produced by a successful run of the conditioning pipeline: the
resampled buffer, scaled by `0.5 / maxAmplitude` exactly when the
normalization branch `maxAmplitude > 0.0001 && maxAmplitude < 0.1` of
`transcribeAudio` line 332 is taken. -/
def condSamples (rs : OfflineResampler) (a : DecodedInput) : List ℚ :=
  let audioData := resampledData rs a
  let maxAmp := maxAmplitude audioData
  if 1/10000 < maxAmp ∧ maxAmp < 1/10 then
    audioData.map (fun x => x * (1/2 / maxAmp))
  else audioData

/-! Model catalog and the model session manager, from
src/src/hooks/useTranscription.ts. -/

/-- Catalog keys of `WHISPER_MODELS` (useTranscription.ts lines 4-11). -/
inductive Key where
  | tiny
  | tinyEn
  | base
  | baseEn
  | small
  | smallEn
deriving DecidableEq, Fintype

/-- Static catalog entry, one record of `WHISPER_MODELS`. -/
structure ModelDescriptor where
  id : String
  name : String
  size : String
  speed : String
  accuracy : String
deriving DecidableEq

/-- The `WHISPER_MODELS` catalog (useTranscription.ts lines 4-11). -/
def WHISPER_MODELS : Key → ModelDescriptor
  | .tiny => ⟨"Xenova/whisper-tiny", "Tiny (39MB)", "39MB", "Fastest", "Basic"⟩
  | .tinyEn => ⟨"Xenova/whisper-tiny.en", "Tiny English (39MB)", "39MB", "Fastest", "Basic"⟩
  | .base => ⟨"Xenova/whisper-base", "Base (74MB)", "74MB", "Fast", "Good"⟩
  | .baseEn => ⟨"Xenova/whisper-base.en", "Base English (74MB)", "74MB", "Fast", "Good"⟩
  | .small => ⟨"Xenova/whisper-small", "Small (244MB)", "244MB", "Medium", "Better"⟩
  | .smallEn => ⟨"Xenova/whisper-small.en", "Small English (244MB)", "244MB", "Medium", "Better"⟩

/-- One entry of the `fallbackConfigurations` array: the option-object fields
that vary across the six configurations (useTranscription.ts lines 46-53). -/
structure LoadConfig where
  quantized : Option Bool
  dtype : Option String
  revision : Option String
  device : Option String
  hasProgressCallback : Bool
deriving DecidableEq

/-- First load configuration
`{quantized: true, dtype: 'fp32', revision: 'main', progress_callback: ...}`. -/
def firstLoadConfig : LoadConfig := ⟨some true, some "fp32", some "main", none, true⟩

/-- Last load configuration, the empty option object. -/
def lastLoadConfig : LoadConfig := ⟨none, none, none, none, false⟩

/-- The ordered `fallbackConfigurations` list of `initializeTranscriber`
(useTranscription.ts lines 46-53). -/
def fallbackConfigurations : List LoadConfig :=
  [firstLoadConfig,
   ⟨some true, none, some "main", none, false⟩,
   ⟨some false, some "fp32", none, some "wasm", false⟩,
   ⟨some true, none, none, none, false⟩,
   ⟨some false, none, none, none, false⟩,
   lastLoadConfig]

/-- The fixed smoke-test signal `new Float32Array(1600).fill(0.001)`
(useTranscription.ts line 60). -/
def testAudio : List ℚ := List.replicate 1600 (1/1000)

/-- Mutable module state of the manager: the `transcriber` ref holding the
loaded callable (opaque handle of type `H`) and the `currentModelRef`
holding the bound remote identifier. -/
structure ManagerState (H : Type) where
  transcriber : Option H
  currentModel : Option String
deriving DecidableEq

/-- One configuration attempt: construct the pipeline for the given remote
identifier and configuration (`pipeline(...)` raced against the 120 s
timeout, both folded into the collaborator `build`), then smoke-test the
fresh handle on `testAudio`; any failure of either step is the
configuration's failure (useTranscription.ts lines 56-68). -/
def attemptOne {H E : Type} (build : String → LoadConfig → Except E H)
    (smoke : H → List ℚ → Except E Unit) (modelId : String) (c : LoadConfig) :
    Except E H :=
  match build modelId c with
  | .error e => .error e
  | .ok h =>
    match smoke h testAudio with
    | .error e => .error e
    | .ok _ => .ok h

/-- The configuration loop of `initializeTranscriber`: walk the
configurations in order, stop at the first success; `lastError` ends up
being the failure of the last attempted configuration, so an all-fail run
surfaces the final configuration's error (useTranscription.ts lines 54-70).
An empty configuration list leaves `lastError` null and the `transcriber`
ref null, which the code returns as a null pipeline. -/
def tryConfigs {H E : Type} (build : String → LoadConfig → Except E H)
    (smoke : H → List ℚ → Except E Unit) (modelId : String) :
    List LoadConfig → Except E (Option H)
  | [] => .ok none
  | [c] =>
    match attemptOne build smoke modelId c with
    | .error e => .error e
    | .ok h => .ok (some h)
  | c :: c' :: rest =>
    match attemptOne build smoke modelId c with
    | .error _ => tryConfigs build smoke modelId (c' :: rest)
    | .ok h => .ok (some h)

/-- Loading tail of `initializeTranscriber` after the fast-path and
eviction checks: run the configuration loop; on success bind the handle
and the identifier, on failure leave the nulled `transcriber` ref and
rethrow the last error (useTranscriber.ts lines 54-71; the catch handlers
set `transcriber.current = null` so a failed run ends with no handle). -/
def loadFrom {H E : Type} (build : String → LoadConfig → Except E H)
    (smoke : H → List ℚ → Except E Unit) (modelId : String) (s : ManagerState H) :
    Except E (Option H) × ManagerState H :=
  match tryConfigs build smoke modelId fallbackConfigurations with
  | .ok none => (.ok none, ⟨none, some modelId⟩)
  | .ok (some h) => (.ok (some h), ⟨some h, some modelId⟩)
  | .error e => (.error e, ⟨none, s.currentModel⟩)

/-- The manager entry point `initializeTranscriber(modelKey)`
(useTranscription.ts lines 26-82): fast path when a handle is loaded and
its bound identifier equals the requested key's identifier; eviction of
both refs when a different identifier is bound; otherwise the
configuration-fallback load. -/
def initializeTranscriber {H E : Type} (build : String → LoadConfig → Except E H)
    (smoke : H → List ℚ → Except E Unit) (k : Key) (s : ManagerState H) :
    Except E (Option H) × ManagerState H :=
  let modelId := (WHISPER_MODELS k).id
  match s.transcriber with
  | some h =>
    if s.currentModel = some modelId then (.ok (some h), s)
    else loadFrom build smoke modelId ⟨none, none⟩
  | none => loadFrom build smoke modelId s

/-! Transcription orchestrator, from `transcribeAudio` in the consolidated
App revision (src/unnamed/part_002, lines 222-487). -/

/-- The fixed fallback key list `['tiny.en', 'tiny', 'base.en', 'base']`
of `transcribeAudio` line 238. -/
def fixedFallbackKeys : List Key := [.tinyEn, .tiny, .baseEn, .base]

/-- The `modelFallbackOrder` candidate list (part_002 lines 236-240): the
selected key first, then the fixed fallback keys minus the selected key
(the `WHISPER_MODELS[model]` truthiness filter of the code is vacuous over
the catalog). -/
def modelFallbackOrder (sel : Key) : List Key :=
  sel :: fixedFallbackKeys.filter (fun m => m ≠ sel)

/-- Candidate list as the specification words it: the selected key followed
by all the other catalog keys in smallest-first order.  Written from the
spec sentence for comparison with `modelFallbackOrder`; the source builds
the list only from `fixedFallbackKeys`. -/
def specModelCandidateOrder (sel : Key) : List Key :=
  sel :: ([.tinyEn, .tiny, .baseEn, .base, .smallEn, .small] : List Key).filter (fun m => m ≠ sel)

/-- The model-walk of `transcribeAudio` lines 247-273: call
`initializeTranscriber` for each candidate in order, remember the last
load error, stop at the first candidate that yields a pipeline. -/
def walkModels {H E : Type} (build : String → LoadConfig → Except E H)
    (smoke : H → List ℚ → Except E Unit) :
    List Key → ManagerState H → Option E → Option (H × Key) × ManagerState H × Option E
  | [], s, lastErr => (none, s, lastErr)
  | k :: rest, s, lastErr =>
    match initializeTranscriber build smoke k s with
    | (.ok (some h), s') => (some (h, k), s', lastErr)
    | (.ok none, s') => walkModels build smoke rest s' lastErr
    | (.error e, s') => walkModels build smoke rest s' (some e)

/-- Failure taxonomy of the orchestrator boundary. -/
inductive TranscriptionError (E : Type) where
  | noModelAvailable (lastErr : Option E)
  | audio (c : CondError)
  | inference (e : E)
  | noSpeechDetected
deriving DecidableEq

/-- Model resolution step of `transcribeAudio` (lines 236-279): walk the
fallback-ordered candidates; on success the caller-visible selected model
is set to the key that actually loaded (`setSelectedModel(modelToTry)`
when it differs, hence always the succeeding key); on failure surface the
last load error. -/
def resolveModelStep {H E : Type} (build : String → LoadConfig → Except E H)
    (smoke : H → List ℚ → Except E Unit) (sel : Key) (s : ManagerState H) :
    Except (TranscriptionError E) (H × Key) × ManagerState H × Key :=
  match walkModels build smoke (modelFallbackOrder sel) s none with
  | (some (h, k), s', _) => (.ok (h, k), s', k)
  | (none, s', lastErr) => (.error (.noModelAvailable lastErr), s', sel)

/-! Heterogeneous inference result shapes and their conversion to text
(part_002 lines 413-420). -/

/-- Element of a `.chunks` array or of a bare result array: either a string
or an object whose `.text` property may be absent. -/
inductive JSEntry where
  | estr (s : String)
  | eobj (text : Option String)
deriving DecidableEq

/-- Object-shaped inference result as the orchestrator discriminates it:
`chunksProp` is present exactly when the object has a `.chunks` property
that is an array; `textProp` records the `.text` string property if any;
`asArray` is present exactly when the value itself is an array (arrays are
objects in JavaScript, so they reach the object branch). -/
structure JSObject where
  chunksProp : Option (List JSEntry)
  textProp : Option String
  asArray : Option (List JSEntry)
deriving DecidableEq

/-- An inference-call result: a bare string, an object/array, or any other
value (null, undefined, numbers), which the object branch skips. -/
inductive InferResult where
  | rstr (s : String)
  | rval (o : JSObject)
  | rnone
deriving DecidableEq

/-- Text of a chunk element inside `chunks.map(chunk => chunk.text).join(' ')`:
a missing `.text` renders as the empty string in `Array.prototype.join`,
and a chunk that is itself a string has no `.text`. -/
def chunkFieldText : JSEntry → String
  | .estr _ => ""
  | .eobj t => t.getD ""

/-- Text of a bare-array element in
`result.map(r => (typeof r === 'string' ? r : r.text || '')).join(' ')`. -/
def arrayEltText : JSEntry → String
  | .estr s => s
  | .eobj t => t.getD ""

/-- Result-shape normalization of `transcribeAudio` lines 413-420: strings
pass through; objects are probed for an array-valued `.chunks`, then a
truthy `.text` (the empty string is falsy), then for being a bare array;
anything else yields the empty string. -/
def extractText : InferResult → String
  | .rstr s => s
  | .rnone => ""
  | .rval o =>
    match o.chunksProp with
    | some cs => String.intercalate " " (cs.map chunkFieldText)
    | none =>
      if o.textProp.getD "" = "" then
        match o.asArray with
        | some es => String.intercalate " " (es.map arrayEltText)
        | none => ""
      else o.textProp.getD ""

/-- Text extraction used for the empty-result retry, `retryResult?.text || ''`
(part_002 line 425): only a truthy `.text` property counts. -/
def retryText : InferResult → String
  | .rval o => o.textProp.getD ""
  | _ => ""

/-- Whitespace trim from both ends, modelling `String.prototype.trim` of
the code's `text.trim()` calls. -/
def jsTrim (s : String) : String :=
  String.mk (((s.toList.dropWhile Char.isWhitespace).reverse.dropWhile
    Char.isWhitespace).reverse)

/-- Scan for the closing bracket of the `^\[.*?\]\s*` artifact pattern:
the lazy `.*?` stops at the first `]`, and `.` does not cross a line
terminator. -/
def dropThroughBracket : List Char → Option (List Char)
  | [] => none
  | c :: cs =>
    if c = ']' then some cs
    else if c = '\n' ∨ c = '\r' then none
    else dropThroughBracket cs

/-- Transcript cleanup `text.trim().replace(/^\[.*?\]\s*/, '')`
(part_002 line 432). -/
def cleanupText (s : String) : String :=
  let t := jsTrim s
  match t.toList with
  | '[' :: rest =>
    match dropThroughBracket rest with
    | some after => String.mk (after.dropWhile Char.isWhitespace)
    | none => t
  | _ => t

/-- Index list of the five `transcriptionConfigs` entries
(part_002 lines 353-384); the n-th entry stands for the n-th pipeline
invocation. -/
def configIndices : List ℕ := [0, 1, 2, 3, 4]

/-- The inference-configuration loop (part_002 lines 386-411): invoke the
pipeline once per configuration (`invoke n` is the outcome of the n-th
invocation, with the 60 s timeout folded into the collaborator), stop at
the first non-throwing call, rethrow the last error when every
configuration throws. -/
def runConfigs {E : Type} [Inhabited E] (invoke : ℕ → Except E InferResult) :
    List ℕ → Except E (InferResult × ℕ)
  | [] => .error default -- unreachable: configIndices is nonempty
  | [i] =>
    match invoke i with
    | .error e => .error e
    | .ok r => .ok (r, i)
  | i :: j :: rest =>
    match invoke i with
    | .error _ => runConfigs invoke (j :: rest)
    | .ok r => .ok (r, i)

/-- Inference stage of `transcribeAudio` (lines 386-433): configuration
loop, shape normalization, the single empty-text retry reading only
`.text`, the `NoSpeechDetected` outcome, and the final cleanup. -/
def inferenceStage {E : Type} [Inhabited E] (invoke : ℕ → Except E InferResult) :
    Except (TranscriptionError E) String :=
  match runConfigs invoke configIndices with
  | .error e => .error (.inference e)
  | .ok (r, i) =>
    let text := extractText r
    if jsTrim text = "" then
      match invoke (i + 1) with
      | .error e => .error (.inference e)
      | .ok r2 =>
        let t2 := retryText r2
        if jsTrim t2 = "" then .error .noSpeechDetected
        else .ok (cleanupText t2)
    else .ok (cleanupText text)

/-- The full orchestrator `transcribeAudio` (part_002 lines 222-487):
resolve a model through the fallback walk, condition the audio, then run
the inference stage on the conditioned samples with the resolved handle.
Returns the outcome together with the manager state and the caller-visible
selected model key. -/
def transcribeAudio {H E : Type} [Inhabited E] (build : String → LoadConfig → Except E H)
    (smoke : H → List ℚ → Except E Unit) (rs : OfflineResampler)
    (call : H → List ℚ → ℕ → Except E InferResult)
    (sel : Key) (ms : ManagerState H) (a : DecodedInput) :
    Except (TranscriptionError E) String × ManagerState H × Key :=
  match resolveModelStep build smoke sel ms with
  | (.error e, ms', sel') => (.error e, ms', sel')
  | (.ok (h, k), ms', _) =>
    match condition rs a with
    | .error ce => (.error (.audio ce), ms', k)
    | .ok cond => (inferenceStage (call h cond.samples), ms', k)

/-! Recording capturer, from `useAudioRecorder` and the `onstop` handler
(src/src/hooks/useTranscription.ts lines 179-248 and src/unnamed/part_002
lines 133-179). -/

/-- One completed capture: raw encoded bytes plus declared MIME type
(a `Blob` in the code). -/
structure AudioClip where
  bytes : List ℕ
  mimeType : String
deriving DecidableEq

/-- State owned by the recording capturer: accumulated chunks, the
negotiated `MediaRecorder` MIME type, the level-meter animation frame and
level, the timer, the device tracks' live flags and the recording flag. -/
structure RecorderState where
  chunks : List (List ℕ)
  negotiatedMime : Option String
  animationFrame : Option ℕ
  audioLevel : ℚ
  recordingDuration : ℚ
  startTime : Option ℕ
  tracksLive : List Bool
  isRecording : Bool
deriving DecidableEq

/-- The `stopAudioLevelMonitoring` callback (useTranscription.ts lines
189-195): cancel the pending animation frame and zero the level. -/
def stopAudioLevelMonitoring (s : RecorderState) : RecorderState :=
  { s with animationFrame := none, audioLevel := 0 }

/-- The `cleanupRecording` callback (useTranscription.ts lines 228-235):
halt the meter, stop every device track, reset the timer. -/
def cleanupRecording (s : RecorderState) : RecorderState :=
  let s1 := stopAudioLevelMonitoring s
  { s1 with
    tracksLive := s1.tracksLive.map (fun _ => false)
    recordingDuration := 0
    startTime := none }

/-- The `mediaRecorder.onstop` handler (part_002 lines 133-179): build one
Blob from the accumulated chunks with the session's negotiated MIME type
(defaulting to audio/webm), run the decode/resample/WAV conversion on it
(the collaborator `process`), clear the recording flag and run
`cleanupRecording`.  Returns the concatenated clip, the processed clip
and the final recorder state. -/
def onStopHandler (process : AudioClip → AudioClip) (s : RecorderState) :
    AudioClip × AudioClip × RecorderState :=
  let audioBlob : AudioClip := ⟨s.chunks.flatten, s.negotiatedMime.getD "audio/webm"⟩
  let wavClip := process audioBlob
  (audioBlob, wavClip, cleanupRecording { s with isRecording := false })

/-! Basic facts about the amplitude fold. -/

lemma maxAmplitude_nonneg (xs : List ℚ) : 0 ≤ maxAmplitude xs := by
  induction xs with
  | nil => exact le_refl 0
  | cons x xs ih => exact le_trans ih (le_max_right _ _)

lemma maxAmplitude_cons (x : ℚ) (xs : List ℚ) :
    maxAmplitude (x :: xs) = max |x| (maxAmplitude xs) := rfl

lemma maxAmplitude_replicate (n : ℕ) (q : ℚ) :
    maxAmplitude (List.replicate n q) = if n = 0 then 0 else |q| := by
  induction n with
  | zero => rfl
  | succ m ih =>
    rw [List.replicate_succ, maxAmplitude_cons, ih]
    rcases Nat.eq_zero_or_pos m with hm | hm
    · simp [hm, abs_nonneg]
    · simp [Nat.pos_iff_ne_zero.mp hm]

lemma maxAmplitude_map_mul (xs : List ℚ) (c : ℚ) (hc : 0 ≤ c) :
    maxAmplitude (xs.map (fun x => x * c)) = maxAmplitude xs * c := by
  induction xs with
  | nil => simp [maxAmplitude]
  | cons x xs ih =>
    rw [List.map_cons, maxAmplitude_cons, maxAmplitude_cons, ih,
      abs_mul, abs_of_nonneg hc, max_mul_of_nonneg _ _ hc]

/-! Length facts about the resampling step. -/

lemma resampledData_length (rs : OfflineResampler) (a : DecodedInput) :
    (resampledData rs a).length = (⌈durationSeconds a * (targetSampleRate : ℚ)⌉).toNat := by
  unfold resampledData
  split_ifs with h
  · exact rs.render_length _ _ _
  · push_neg at h
    rw [durationSeconds, h]
    have h0 : ((targetSampleRate : ℕ) : ℚ) ≠ 0 := by norm_num [targetSampleRate]
    rw [div_mul_cancel₀ _ h0]
    simp

lemma resampledData_length_ge (rs : OfflineResampler) (a : DecodedInput)
    (h : 1/10 ≤ durationSeconds a) : 1600 ≤ (resampledData rs a).length := by
  rw [resampledData_length]
  have h1 : (1600 : ℚ) ≤ durationSeconds a * (targetSampleRate : ℚ) := by
    have := mul_le_mul_of_nonneg_right h (by norm_num [targetSampleRate] :
      (0:ℚ) ≤ (targetSampleRate : ℚ))
    rw [targetSampleRate] at *
    push_cast at *
    linarith
  have h2 : (1600 : ℤ) ≤ ⌈durationSeconds a * (targetSampleRate : ℚ)⌉ := by
    have := Int.ceil_le_ceil h1
    simpa using this
  omega

/-- Success shape of the conditioning pipeline: once both duration gates and
the silence gate pass, `condition` returns the (possibly normalized)
resampled buffer at the target rate. -/
lemma condSamples_length (rs : OfflineResampler) (a : DecodedInput) :
    (condSamples rs a).length = (resampledData rs a).length := by
  simp only [condSamples]
  split_ifs <;> simp

lemma condition_ok (rs : OfflineResampler) (a : DecodedInput)
    (h1 : 1/10 ≤ durationSeconds a) (h2 : durationSeconds a ≤ 30)
    (h3 : 1/10000 ≤ maxAmplitude (resampledData rs a)) :
    condition rs a = .ok ⟨condSamples rs a, targetSampleRate⟩ := by
  have hlen := resampledData_length_ge rs a h1
  have hlen2 := condSamples_length rs a
  simp only [condition]
  rw [if_neg (not_lt.mpr h2), if_neg (not_lt.mpr h1), if_neg (not_lt.mpr h3)]
  have e1 : (if 1 / 10000 < maxAmplitude (resampledData rs a) ∧
        maxAmplitude (resampledData rs a) < 1 / 10 then
        List.map (fun x => x * (1 / 2 / maxAmplitude (resampledData rs a))) (resampledData rs a)
      else resampledData rs a) = condSamples rs a := rfl
  rw [e1, if_neg (by rw [hlen2]; omega), if_neg (by rw [hlen2]; omega)]

/-- Distance between the ceiling (which the code requests from the offline
context) and the rounded value (which the spec states) is at most one. -/
lemma ceil_round_close (x : ℚ) : |⌈x⌉ - round x| ≤ 1 := by
  rw [round_eq]
  have h1 : ⌊x + (1:ℚ)/2⌋ ≤ ⌈x⌉ := by
    rw [Int.floor_le_iff]
    have := Int.le_ceil x
    linarith
  have h2 : ⌈x⌉ ≤ ⌊x + (1:ℚ)/2⌋ + 1 := by
    have ha : ⌈x⌉ ≤ ⌊x⌋ + 1 := Int.ceil_le_floor_add_one x
    have hb : ⌊x⌋ ≤ ⌊x + (1:ℚ)/2⌋ := Int.floor_le_floor (by linarith)
    omega
  rw [abs_le]
  omega

/-! Evaluation helpers for concrete clips built from constant buffers. -/

lemma durationSeconds_replicate (n r : ℕ) (q : ℚ) :
    durationSeconds ⟨List.replicate n q, r⟩ = (n : ℚ) / (r : ℚ) := by
  simp [durationSeconds]

lemma resampledData_constRs (q : ℚ) (a : DecodedInput) (h : a.sampleRate ≠ targetSampleRate) :
    resampledData (constRs q) a =
      List.replicate (⌈durationSeconds a * ((targetSampleRate : ℕ) : ℚ)⌉).toNat q := by
  simp [resampledData, constRs, h]

lemma maxAmplitude_resampled_constRs (q : ℚ) (a : DecodedInput)
    (h : a.sampleRate ≠ targetSampleRate) (hd : durationSeconds a = 1/10) :
    maxAmplitude (resampledData (constRs q) a) = |q| := by
  rw [resampledData_constRs q a h, maxAmplitude_replicate, hd]
  have : (⌈(1/10 : ℚ) * ((targetSampleRate : ℕ) : ℚ)⌉).toNat = 1600 := by
    rw [targetSampleRate]
    norm_num
    rfl
  rw [this]
  norm_num

/-- C2: the duration gate of the conditioning pipeline fails with `TooShort`
exactly when the duration is strictly below 0.1 s and with `TooLong` exactly
when it strictly exceeds 30 s; consequently the boundary durations 0.1 and
30 themselves are never rejected by the duration gate.  The two bounds are
the literals of `transcribeAudio` lines 293-300, not parameters of the
call. -/
theorem condition_duration_gate (rs : OfflineResampler) (a : DecodedInput) :
    (condition rs a = .error .tooShort ↔ durationSeconds a < 1/10)
    ∧ (condition rs a = .error .tooLong ↔ 30 < durationSeconds a) := by
  constructor
  · constructor
    · intro h
      by_contra hd
      push_neg at hd
      rcases le_or_lt (durationSeconds a) 30 with h30 | h30
      · simp only [condition] at h
        rw [if_neg (not_lt.mpr h30), if_neg (not_lt.mpr hd)] at h
        split_ifs at h <;> simp_all
      · simp only [condition] at h
        rw [if_pos h30] at h
        simp_all
    · intro h
      have h30 : ¬ 30 < durationSeconds a := by linarith
      simp only [condition]
      rw [if_neg h30, if_pos h]
  · constructor
    · intro h
      by_contra hd
      push_neg at hd
      simp only [condition] at h
      rw [if_neg (not_lt.mpr hd)] at h
      split_ifs at h <;> simp_all
    · intro h
      simp only [condition]
      rw [if_pos h]

/-- Witness for the C2 theorem: the empty clip has duration 0 and is
rejected as `TooShort`. -/
theorem condition_duration_gate_witness :
    condition (constRs 0) ⟨[], 1⟩ = .error .tooShort :=
  (condition_duration_gate (constRs 0) ⟨[], 1⟩).1.mpr
    (by norm_num [durationSeconds])

/-- C1: for a decoded clip whose duration passes both gates and whose
resampled buffer passes the silence gate, conditioning succeeds and
returns samples at exactly 16000 Hz whose count is exactly
`ceil(durationSeconds * 16000)` (within one sample of
`round(durationSeconds * 16000)`); when the native rate is already
16000 Hz the resampling step hands the decoded channel through
unchanged. -/
theorem condition_resample_law (rs : OfflineResampler) (a : DecodedInput)
    (h1 : 1/10 ≤ durationSeconds a) (h2 : durationSeconds a ≤ 30)
    (h3 : 1/10000 ≤ maxAmplitude (resampledData rs a)) :
    condition rs a = .ok ⟨condSamples rs a, 16000⟩
    ∧ (condSamples rs a).length = (⌈durationSeconds a * 16000⌉).toNat
    ∧ |⌈durationSeconds a * 16000⌉ - round (durationSeconds a * 16000)| ≤ 1
    ∧ (a.sampleRate = 16000 → resampledData rs a = a.channelData) := by
  refine ⟨condition_ok rs a h1 h2 h3, ?_, ceil_round_close _, ?_⟩
  · rw [condSamples_length, resampledData_length]
    norm_num [targetSampleRate]
  · intro h16
    simp [resampledData, targetSampleRate, h16]

/-- Witness for the C1 theorem: a 0.1 s clip at a native rate of 8000 Hz,
conditioned through a constant-rendering resampler, yields 1600 samples at
16000 Hz. -/
theorem condition_resample_law_witness :
    condition (constRs (1/2)) ⟨List.replicate 800 0, 8000⟩ =
      .ok ⟨condSamples (constRs (1/2)) ⟨List.replicate 800 0, 8000⟩, 16000⟩
    ∧ (condSamples (constRs (1/2)) ⟨List.replicate 800 0, 8000⟩).length =
      (⌈durationSeconds ⟨List.replicate 800 0, 8000⟩ * 16000⌉).toNat
    ∧ |⌈durationSeconds ⟨List.replicate 800 0, 8000⟩ * 16000⌉ -
        round (durationSeconds ⟨List.replicate 800 0, 8000⟩ * 16000)| ≤ 1
    ∧ (DecodedInput.sampleRate ⟨List.replicate 800 0, 8000⟩ = 16000 →
        resampledData (constRs (1/2)) ⟨List.replicate 800 0, 8000⟩ =
          DecodedInput.channelData ⟨List.replicate 800 0, 8000⟩) := by
  have hd : durationSeconds ⟨List.replicate 800 0, 8000⟩ = 1/10 := by
    rw [durationSeconds_replicate]
    norm_num
  have hr : DecodedInput.sampleRate ⟨List.replicate 800 0, 8000⟩ ≠ targetSampleRate := by
    rw [targetSampleRate]
    decide
  exact condition_resample_law (constRs (1/2)) ⟨List.replicate 800 0, 8000⟩
    (by rw [hd]) (by rw [hd]; norm_num)
    (by
      rw [maxAmplitude_resampled_constRs _ _ hr hd,
        abs_of_pos (by norm_num : (0:ℚ) < 1/2)]
      norm_num)

/-- Counterexample for C3 as stated: a conditioned clip whose
pre-normalization peak is exactly 0.0001 passes the silence gate, yet the
code's strict `maxAmplitude > 0.0001` test skips normalization, so the
samples come back unchanged and the post-normalization peak is 0.0001,
not 0.5. -/
theorem condition_normalization_cex :
    maxAmplitude (resampledData (constRs (1/10000)) ⟨List.replicate 100 0, 1000⟩) = 1/10000
    ∧ (1/10000 : ℚ) ≤ 1/10000 ∧ (1/10000 : ℚ) < 1/10
    ∧ condition (constRs (1/10000)) ⟨List.replicate 100 0, 1000⟩ =
        .ok ⟨resampledData (constRs (1/10000)) ⟨List.replicate 100 0, 1000⟩, 16000⟩
    ∧ maxAmplitude (resampledData (constRs (1/10000)) ⟨List.replicate 100 0, 1000⟩) ≠ 1/2 := by
  have hd : durationSeconds ⟨List.replicate 100 0, 1000⟩ = 1/10 := by
    rw [durationSeconds_replicate]
    norm_num
  have hr : DecodedInput.sampleRate ⟨List.replicate 100 0, 1000⟩ ≠ targetSampleRate := by
    rw [targetSampleRate]
    decide
  have hm : maxAmplitude (resampledData (constRs (1/10000)) ⟨List.replicate 100 0, 1000⟩) =
      1/10000 := by
    rw [maxAmplitude_resampled_constRs _ _ hr hd,
      abs_of_pos (by norm_num : (0:ℚ) < 1/10000)]
  refine ⟨hm, le_refl _, by norm_num, ?_, by rw [hm]; norm_num⟩
  have hok := condition_ok (constRs (1/10000)) ⟨List.replicate 100 0, 1000⟩
    (by rw [hd]) (by rw [hd]; norm_num) (by rw [hm])
  rw [hok]
  have hcs : condSamples (constRs (1/10000)) ⟨List.replicate 100 0, 1000⟩ =
      resampledData (constRs (1/10000)) ⟨List.replicate 100 0, 1000⟩ := by
    simp only [condSamples]
    rw [hm]
    norm_num
  rw [hcs]
  rfl

/-- C3 (amended): for a conditioned clip, a pre-normalization peak `p` with
`0.0001 < p < 0.1` (both strict, matching the code's
`maxAmplitude > 0.0001 && maxAmplitude < 0.1`) is normalized by `0.5 / p`
and the post-normalization peak is exactly 0.5; a peak of at least 0.1 is
returned unchanged; and the boundary peak of exactly 0.0001 is accepted by
the silence gate but returned unchanged, not normalized. -/
theorem condition_normalization (rs : OfflineResampler) (a : DecodedInput)
    (h1 : 1/10 ≤ durationSeconds a) (h2 : durationSeconds a ≤ 30) :
    (1/10000 < maxAmplitude (resampledData rs a) →
      maxAmplitude (resampledData rs a) < 1/10 →
      condition rs a = .ok ⟨(resampledData rs a).map
          (fun x => x * (1/2 / maxAmplitude (resampledData rs a))), 16000⟩
      ∧ maxAmplitude ((resampledData rs a).map
          (fun x => x * (1/2 / maxAmplitude (resampledData rs a)))) = 1/2)
    ∧ (1/10 ≤ maxAmplitude (resampledData rs a) →
      condition rs a = .ok ⟨resampledData rs a, 16000⟩)
    ∧ (maxAmplitude (resampledData rs a) = 1/10000 →
      condition rs a = .ok ⟨resampledData rs a, 16000⟩) := by
  refine ⟨fun hlo hhi => ?_, fun hge => ?_, fun heq => ?_⟩
  · have hok := condition_ok rs a h1 h2 (le_of_lt hlo)
    have hm0 : maxAmplitude (resampledData rs a) ≠ 0 :=
      ne_of_gt (lt_trans (by norm_num) hlo)
    have hcs : condSamples rs a = (resampledData rs a).map
        (fun x => x * (1/2 / maxAmplitude (resampledData rs a))) := by
      simp only [condSamples]
      rw [if_pos ⟨hlo, hhi⟩]
    refine ⟨by rw [hok, hcs]; rfl, ?_⟩
    rw [maxAmplitude_map_mul _ _
      (div_nonneg (by norm_num) (le_of_lt (lt_trans (by norm_num) hlo)))]
    field_simp
    ring
  · have hok := condition_ok rs a h1 h2 (le_trans (by norm_num) hge)
    have hcs : condSamples rs a = resampledData rs a := by
      simp only [condSamples]
      rw [if_neg (by push_neg; intro _; linarith)]
    rw [hok, hcs]
    rfl
  · have hok := condition_ok rs a h1 h2 (le_of_eq heq.symm)
    have hcs : condSamples rs a = resampledData rs a := by
      simp only [condSamples]
      rw [if_neg (by rw [heq]; norm_num)]
    rw [hok, hcs]
    rfl

/-- Witness for the amended C3 theorem: a clip with constant resampled
amplitude 0.01 is normalized and its post-normalization peak is 0.5. -/
theorem condition_normalization_witness :
    condition (constRs (1/100)) ⟨List.replicate 100 0, 1000⟩ =
      .ok ⟨(resampledData (constRs (1/100)) ⟨List.replicate 100 0, 1000⟩).map
        (fun x => x * (1/2 /
          maxAmplitude (resampledData (constRs (1/100)) ⟨List.replicate 100 0, 1000⟩))),
        16000⟩
    ∧ maxAmplitude ((resampledData (constRs (1/100)) ⟨List.replicate 100 0, 1000⟩).map
        (fun x => x * (1/2 /
          maxAmplitude (resampledData (constRs (1/100)) ⟨List.replicate 100 0, 1000⟩)))) =
      1/2 := by
  have hd : durationSeconds ⟨List.replicate 100 0, 1000⟩ = 1/10 := by
    rw [durationSeconds_replicate]
    norm_num
  have hr : DecodedInput.sampleRate ⟨List.replicate 100 0, 1000⟩ ≠ targetSampleRate := by
    rw [targetSampleRate]
    decide
  have hm : maxAmplitude (resampledData (constRs (1/100)) ⟨List.replicate 100 0, 1000⟩) =
      1/100 := by
    rw [maxAmplitude_resampled_constRs _ _ hr hd,
      abs_of_pos (by norm_num : (0:ℚ) < 1/100)]
  exact (condition_normalization _ _ (by rw [hd]) (by rw [hd]; norm_num)).1
    (by rw [hm]; norm_num) (by rw [hm]; norm_num)

/-- C4: a resampled clip whose peak amplitude is strictly below 0.0001
makes conditioning fail with `SignalTooWeak` for every duration accepted
by the duration gate, and the whole orchestrator run is then independent
of the inference collaborator: no inference call can influence the
outcome. -/
theorem condition_silence_gate (rs : OfflineResampler) (a : DecodedInput)
    (h1 : 1/10 ≤ durationSeconds a) (h2 : durationSeconds a ≤ 30)
    (h3 : maxAmplitude (resampledData rs a) < 1/10000) :
    condition rs a = .error .signalTooWeak
    ∧ ∀ (H E : Type) [Inhabited E] (build : String → LoadConfig → Except E H)
        (smoke : H → List ℚ → Except E Unit)
        (call call' : H → List ℚ → ℕ → Except E InferResult)
        (sel : Key) (ms : ManagerState H),
        transcribeAudio build smoke rs call sel ms a =
          transcribeAudio build smoke rs call' sel ms a := by
  have hc : condition rs a = .error .signalTooWeak := by
    simp only [condition]
    rw [if_neg (not_lt.mpr h2), if_neg (not_lt.mpr h1), if_pos h3]
  refine ⟨hc, ?_⟩
  intro H E instE build smoke call call' sel ms
  simp only [transcribeAudio, hc]

/-- Witness for the C4 theorem: an all-zero 0.1 s clip is rejected as
`SignalTooWeak`. -/
theorem condition_silence_gate_witness :
    condition (constRs 0) ⟨List.replicate 100 0, 1000⟩ = .error .signalTooWeak := by
  have hd : durationSeconds ⟨List.replicate 100 0, 1000⟩ = 1/10 := by
    rw [durationSeconds_replicate]
    norm_num
  have hr : DecodedInput.sampleRate ⟨List.replicate 100 0, 1000⟩ ≠ targetSampleRate := by
    rw [targetSampleRate]
    decide
  have hm : maxAmplitude (resampledData (constRs 0) ⟨List.replicate 100 0, 1000⟩) = 0 := by
    rw [maxAmplitude_resampled_constRs _ _ hr hd, abs_zero]
  exact (condition_silence_gate _ _ (by rw [hd]) (by rw [hd]; norm_num)
    (by rw [hm]; norm_num)).1

/-! Helper lemmas for the model session manager. -/

lemma tryConfigs_all_fail {H E : Type} (build : String → LoadConfig → Except E H)
    (smoke : H → List ℚ → Except E Unit) (modelId : String)
    (hfail : ∀ c ∈ fallbackConfigurations, ∃ e, attemptOne build smoke modelId c = .error e) :
    ∃ e, attemptOne build smoke modelId lastLoadConfig = .error e ∧
      tryConfigs build smoke modelId fallbackConfigurations = .error e := by
  obtain ⟨e1, h1⟩ := hfail firstLoadConfig (by simp [fallbackConfigurations])
  obtain ⟨e2, h2⟩ := hfail ⟨some true, none, some "main", none, false⟩
    (by simp [fallbackConfigurations])
  obtain ⟨e3, h3⟩ := hfail ⟨some false, some "fp32", none, some "wasm", false⟩
    (by simp [fallbackConfigurations])
  obtain ⟨e4, h4⟩ := hfail ⟨some true, none, none, none, false⟩
    (by simp [fallbackConfigurations])
  obtain ⟨e5, h5⟩ := hfail ⟨some false, none, none, none, false⟩
    (by simp [fallbackConfigurations])
  obtain ⟨e6, h6⟩ := hfail lastLoadConfig (by simp [fallbackConfigurations])
  exact ⟨e6, h6, by simp [fallbackConfigurations, tryConfigs, h1, h2, h3, h4, h5, h6]⟩

lemma initTranscriber_fail {H E : Type} (build : String → LoadConfig → Except E H)
    (smoke : H → List ℚ → Except E Unit) (k : Key) (s : ManagerState H)
    (hinv : s.transcriber = none → s.currentModel = none)
    (hnofast : s.transcriber = none ∨ s.currentModel ≠ some (WHISPER_MODELS k).id)
    (hfail : ∀ c ∈ fallbackConfigurations,
      ∃ e, attemptOne build smoke (WHISPER_MODELS k).id c = .error e) :
    ∃ e, attemptOne build smoke (WHISPER_MODELS k).id lastLoadConfig = .error e ∧
      initializeTranscriber build smoke k s = (.error e, ⟨none, none⟩) := by
  obtain ⟨e, he, htc⟩ := tryConfigs_all_fail build smoke _ hfail
  refine ⟨e, he, ?_⟩
  cases hs : s.transcriber with
  | none =>
    have hcm := hinv hs
    simp only [initializeTranscriber, hs, loadFrom, htc, hcm]
  | some h0 =>
    rcases hnofast with hn | hn
    · rw [hs] at hn
      exact absurd hn (by simp)
    · simp only [initializeTranscriber, hs, if_neg hn, loadFrom, htc]

lemma initTranscriber_first_ok {H E : Type} (build : String → LoadConfig → Except E H)
    (smoke : H → List ℚ → Except E Unit) (k : Key) (s : ManagerState H) (hh : H)
    (hs : s.transcriber = none)
    (hok : attemptOne build smoke (WHISPER_MODELS k).id firstLoadConfig = .ok hh) :
    initializeTranscriber build smoke k s =
      (.ok (some hh), ⟨some hh, some (WHISPER_MODELS k).id⟩) := by
  simp only [initializeTranscriber, hs, loadFrom, fallbackConfigurations, tryConfigs, hok]

lemma loadFrom_ok_shape {H E : Type} {build : String → LoadConfig → Except E H}
    {smoke : H → List ℚ → Except E Unit} {modelId : String} {s0 : ManagerState H}
    {h : H} {s' : ManagerState H}
    (h1 : loadFrom build smoke modelId s0 = (.ok (some h), s')) :
    s'.transcriber = some h ∧ s'.currentModel = some modelId := by
  unfold loadFrom at h1
  rcases htc : tryConfigs build smoke modelId fallbackConfigurations with e | oh
  · rw [htc] at h1
    injection h1 with h1a _
    exact absurd h1a (by simp)
  · rw [htc] at h1
    cases oh with
    | none =>
      injection h1 with h1a _
      injection h1a with h1c
      exact absurd h1c (by simp)
    | some h0 =>
      injection h1 with h1a h1b
      injection h1a with h1c
      injection h1c with h1d
      subst h1d
      rw [← h1b]
      exact ⟨rfl, rfl⟩

/-- C5: when every load configuration fails (construction, the 120 s
timeout, or the smoke test), `initializeTranscriber` rethrows the last
configuration's error and afterwards holds neither a handle nor a bound
identifier (the `Unloaded` state) — and from that state a later call with
a working collaborator loads normally instead of being stuck. -/
theorem initializeTranscriber_all_configs_fail {H E : Type}
    (build : String → LoadConfig → Except E H) (smoke : H → List ℚ → Except E Unit)
    (k : Key) (s : ManagerState H)
    (hinv : s.transcriber = none → s.currentModel = none)
    (hnofast : s.transcriber = none ∨ s.currentModel ≠ some (WHISPER_MODELS k).id)
    (hfail : ∀ c ∈ fallbackConfigurations,
      ∃ e, attemptOne build smoke (WHISPER_MODELS k).id c = .error e) :
    (∃ e, attemptOne build smoke (WHISPER_MODELS k).id lastLoadConfig = .error e ∧
      initializeTranscriber build smoke k s = (.error e, ⟨none, none⟩))
    ∧ ∀ (build' : String → LoadConfig → Except E H) (smoke' : H → List ℚ → Except E Unit)
        (hh : H),
        attemptOne build' smoke' (WHISPER_MODELS k).id firstLoadConfig = .ok hh →
        initializeTranscriber build' smoke' k ⟨none, none⟩ =
          (.ok (some hh), ⟨some hh, some (WHISPER_MODELS k).id⟩) :=
  ⟨initTranscriber_fail build smoke k s hinv hnofast hfail,
    fun build' smoke' hh hok => initTranscriber_first_ok build' smoke' k ⟨none, none⟩ hh rfl hok⟩

/-- Witness for the C5 theorem: with a builder that always throws, the
manager fails with that error and ends in the empty state. -/
theorem initializeTranscriber_all_configs_fail_witness :
    initializeTranscriber (fun _ _ => (.error "boom" : Except String ℕ)) (fun _ _ => .ok ())
      Key.tinyEn ⟨none, none⟩ = (.error "boom", (⟨none, none⟩ : ManagerState ℕ)) := by
  obtain ⟨⟨e, he, hr⟩, _⟩ := initializeTranscriber_all_configs_fail
    (fun _ _ => (.error "boom" : Except String ℕ)) (fun _ _ => .ok ()) Key.tinyEn ⟨none, none⟩
    (fun _ => rfl) (Or.inl rfl) (fun c _ => ⟨"boom", rfl⟩)
  have he2 : "boom" = e := by simpa [attemptOne] using he
  rw [← he2] at hr
  exact hr

/-- C6: a call that returned a handle leaves the manager bound to the
requested key's identifier, so an immediately following request for the
same key returns the same handle and the same state for every collaborator
pair — no load attempt and no smoke test can influence it. -/
theorem initializeTranscriber_idempotent {H E : Type}
    (build build' : String → LoadConfig → Except E H)
    (smoke smoke' : H → List ℚ → Except E Unit) (k : Key)
    (s s' : ManagerState H) (h : H)
    (h1 : initializeTranscriber build smoke k s = (.ok (some h), s')) :
    initializeTranscriber build' smoke' k s' = (.ok (some h), s') := by
  have hs' : s'.transcriber = some h ∧ s'.currentModel = some (WHISPER_MODELS k).id := by
    cases hs : s.transcriber with
    | some h0 =>
      simp only [initializeTranscriber, hs] at h1
      by_cases hc : s.currentModel = some (WHISPER_MODELS k).id
      · rw [if_pos hc] at h1
        injection h1 with h1a h1b
        injection h1a with h1c
        injection h1c with h1d
        subst h1d
        subst h1b
        exact ⟨hs, hc⟩
      · rw [if_neg hc] at h1
        exact loadFrom_ok_shape h1
    | none =>
      simp only [initializeTranscriber, hs] at h1
      exact loadFrom_ok_shape h1
  obtain ⟨ht, hc⟩ := hs'
  simp only [initializeTranscriber, ht, if_pos hc]

/-- Witness for the C6 theorem: after loading a handle for `tiny.en`, a
second request for `tiny.en` returns it unchanged even though its builder
always throws. -/
theorem initializeTranscriber_idempotent_witness :
    initializeTranscriber (fun _ _ => (.error "off" : Except String ℕ)) (fun _ _ => .ok ())
      Key.tinyEn ⟨some 7, some (WHISPER_MODELS Key.tinyEn).id⟩ =
      (.ok (some 7), ⟨some 7, some (WHISPER_MODELS Key.tinyEn).id⟩) :=
  initializeTranscriber_idempotent (fun _ _ => (.ok 7 : Except String ℕ))
    (fun _ _ => .error "off") (fun _ _ => .ok ()) (fun _ _ => .ok ())
    Key.tinyEn ⟨none, none⟩ ⟨some 7, some (WHISPER_MODELS Key.tinyEn).id⟩ 7 rfl

/-- Counterexample for C7 as stated: the code's candidate list is built
only from the fixed fallback keys tiny.en, tiny, base.en, base, so the
catalog key `small` never appears among the candidates of another
selection, although the claimed "other catalog keys" list contains it. -/
theorem modelFallbackOrder_cex :
    Key.small ∈ specModelCandidateOrder Key.tinyEn
    ∧ Key.small ∉ modelFallbackOrder Key.tinyEn
    ∧ modelFallbackOrder Key.tinyEn ≠ specModelCandidateOrder Key.tinyEn := by decide

/-- C7 (amended): the candidate list is the selected key followed by the
fixed fallback keys (duplicates excluded; the small models are not
fallback candidates); the orchestrator walks it in order, stops at the
first key whose load succeeds, and the caller-visible selected model
becomes that key — here instantiated at a walk whose first two candidates
fail every configuration and whose third candidate loads. -/
theorem resolveModel_third_candidate {H E : Type}
    (build : String → LoadConfig → Except E H) (smoke : H → List ℚ → Except E Unit)
    (sel k1 k2 k3 : Key) (rest : List Key) (hdl : H)
    (horder : modelFallbackOrder sel = k1 :: k2 :: k3 :: rest)
    (hf1 : ∀ c ∈ fallbackConfigurations,
      ∃ e, attemptOne build smoke (WHISPER_MODELS k1).id c = .error e)
    (hf2 : ∀ c ∈ fallbackConfigurations,
      ∃ e, attemptOne build smoke (WHISPER_MODELS k2).id c = .error e)
    (hs3 : attemptOne build smoke (WHISPER_MODELS k3).id firstLoadConfig = .ok hdl) :
    resolveModelStep build smoke sel ⟨none, none⟩ =
      (.ok (hdl, k3), ⟨some hdl, some (WHISPER_MODELS k3).id⟩, k3)
    ∧ ∀ m : Key, (modelFallbackOrder m).Nodup
        ∧ (modelFallbackOrder m).head? = some m
        ∧ (modelFallbackOrder m).tail = fixedFallbackKeys.filter (fun x => x ≠ m) := by
  constructor
  · obtain ⟨e1, -, hi1⟩ := initTranscriber_fail build smoke k1 ⟨none, none⟩
      (fun _ => rfl) (Or.inl rfl) hf1
    obtain ⟨e2, -, hi2⟩ := initTranscriber_fail build smoke k2 ⟨none, none⟩
      (fun _ => rfl) (Or.inl rfl) hf2
    have hi3 := initTranscriber_first_ok build smoke k3 ⟨none, none⟩ hdl rfl hs3
    unfold resolveModelStep
    rw [horder]
    simp only [walkModels, hi1, hi2, hi3]
  · decide

/-- Witness for the amended C7 theorem: with `small` selected and a builder
that only succeeds for the tiny identifier, the first two candidates
(small, tiny.en) fail, the third (tiny) loads, and the selected model
ends up being tiny. -/
theorem resolveModel_third_candidate_witness :
    resolveModelStep
      (fun id _ => if id = "Xenova/whisper-tiny" then (.ok 42 : Except String ℕ)
        else .error "fail")
      (fun _ _ => .ok ()) Key.small ⟨none, none⟩ =
      (.ok (42, Key.tiny), ⟨some 42, some (WHISPER_MODELS Key.tiny).id⟩, Key.tiny) :=
  (resolveModel_third_candidate
    (fun id _ => if id = "Xenova/whisper-tiny" then (.ok 42 : Except String ℕ)
      else .error "fail")
    (fun _ _ => .ok ()) Key.small Key.small Key.tinyEn Key.tiny [Key.baseEn, Key.base] 42
    (by decide) (fun c _ => ⟨"fail", rfl⟩) (fun c _ => ⟨"fail", rfl⟩) rfl).1

/-- C8: shape normalization of a non-throwing inference result — bare
strings pass through, an object with a `.chunks` array joins the chunk
texts with spaces, otherwise a truthy `.text` is used, otherwise a bare
array joins its elements (strings or their `.text`) with spaces, and
every remaining shape yields the empty string rather than an error. -/
theorem extractText_shapes :
    (∀ s, extractText (.rstr s) = s)
    ∧ (∀ o cs, o.chunksProp = some cs →
        extractText (.rval o) = String.intercalate " " (cs.map chunkFieldText))
    ∧ (∀ o t, o.chunksProp = none → o.textProp = some t → t ≠ "" →
        extractText (.rval o) = t)
    ∧ (∀ o es, o.chunksProp = none → o.textProp.getD "" = "" → o.asArray = some es →
        extractText (.rval o) = String.intercalate " " (es.map arrayEltText))
    ∧ (∀ o, o.chunksProp = none → o.textProp.getD "" = "" → o.asArray = none →
        extractText (.rval o) = "")
    ∧ extractText .rnone = "" := by
  refine ⟨fun s => rfl, fun o cs hc => ?_, fun o t hc ht hne => ?_,
    fun o es hc ht ha => ?_, fun o hc ht ha => ?_, rfl⟩
  · simp [extractText, hc]
  · simp [extractText, hc, ht, hne]
  · simp [extractText, hc, ht, ha]
  · simp [extractText, hc, ht, ha]

/-- Witness for the C8 theorem: an object whose `.chunks` array holds two
objects with texts hello and world yields the space-joined transcript. -/
theorem extractText_shapes_witness :
    extractText (.rval ⟨some [.eobj (some "hello"), .eobj (some "world")], none, none⟩) =
      "hello world" := by
  have h := extractText_shapes.2.1
    ⟨some [.eobj (some "hello"), .eobj (some "world")], none, none⟩
    [.eobj (some "hello"), .eobj (some "world")] rfl
  rw [h]
  rfl

/-- C9: when the configuration loop's first non-throwing result normalizes
to whitespace-only text, the orchestrator performs exactly one more
minimal-options call; a retry with truthy `.text` is cleaned up and used,
an empty retry fails with `NoSpeechDetected`, and a throwing retry
propagates as a technical inference error. -/
theorem inferenceStage_empty_retry {E : Type} [Inhabited E]
    (invoke : ℕ → Except E InferResult) (r : InferResult) (i : ℕ)
    (hrun : runConfigs invoke configIndices = .ok (r, i))
    (hempty : jsTrim (extractText r) = "") :
    (∀ r2, invoke (i + 1) = .ok r2 →
      (jsTrim (retryText r2) ≠ "" → inferenceStage invoke = .ok (cleanupText (retryText r2)))
      ∧ (jsTrim (retryText r2) = "" → inferenceStage invoke = .error .noSpeechDetected))
    ∧ (∀ e, invoke (i + 1) = .error e → inferenceStage invoke = .error (.inference e)) := by
  have base : inferenceStage invoke =
      match invoke (i + 1) with
      | .error e => .error (.inference e)
      | .ok r2 =>
        if jsTrim (retryText r2) = "" then .error .noSpeechDetected
        else .ok (cleanupText (retryText r2)) := by
    unfold inferenceStage
    rw [hrun]
    simp only [hempty, if_true]
  refine ⟨fun r2 h2 => ⟨fun hne => ?_, fun he => ?_⟩, fun e he => ?_⟩
  · rw [base, h2]
    exact if_neg hne
  · rw [base, h2]
    exact if_pos he
  · rw [base, he]

/-- Witness for the C9 theorem, the spec's mock scenario: an inference
callable returning text empty first and hello on the retry produces the
final transcript hello. -/
theorem inferenceStage_empty_retry_witness :
    inferenceStage (fun n => if n = 0 then
        (.ok (.rval ⟨none, some "", none⟩) : Except String InferResult)
      else .ok (.rval ⟨none, some "hello", none⟩)) = .ok "hello" := by
  have h := ((inferenceStage_empty_retry
    (fun n => if n = 0 then
        (.ok (.rval ⟨none, some "", none⟩) : Except String InferResult)
      else .ok (.rval ⟨none, some "hello", none⟩))
    (.rval ⟨none, some "", none⟩) 0 rfl rfl).1
    (.rval ⟨none, some "hello", none⟩) rfl).1 (by decide)
  rw [h]
  rfl

/-- C10: the stop handler concatenates the accumulated chunks into exactly
one clip carrying the session's negotiated MIME type (defaulting to
audio/webm), halts the level meter and releases every device track. -/
theorem onStopHandler_spec (process : AudioClip → AudioClip) (s : RecorderState) :
    (onStopHandler process s).1.bytes = s.chunks.flatten
    ∧ (onStopHandler process s).1.mimeType = s.negotiatedMime.getD "audio/webm"
    ∧ (onStopHandler process s).2.2.animationFrame = none
    ∧ (onStopHandler process s).2.2.audioLevel = 0
    ∧ (onStopHandler process s).2.2.tracksLive = s.tracksLive.map (fun _ => false)
    ∧ (onStopHandler process s).2.2.isRecording = false :=
  ⟨rfl, rfl, rfl, rfl, rfl, rfl⟩

/-- Witness for the C10 theorem at a concrete recording session with two
accumulated chunks, a negotiated mp4 MIME type, a live meter and two live
tracks. -/
theorem onStopHandler_spec_witness :
    (onStopHandler id ⟨[[1, 2], [3]], some "audio/mp4", some 5, 1/2, 3, some 9,
        [true, true], true⟩).1.bytes = [[1, 2], [3]].flatten
    ∧ (onStopHandler id ⟨[[1, 2], [3]], some "audio/mp4", some 5, 1/2, 3, some 9,
        [true, true], true⟩).1.mimeType = (some "audio/mp4").getD "audio/webm"
    ∧ (onStopHandler id ⟨[[1, 2], [3]], some "audio/mp4", some 5, 1/2, 3, some 9,
        [true, true], true⟩).2.2.animationFrame = none
    ∧ (onStopHandler id ⟨[[1, 2], [3]], some "audio/mp4", some 5, 1/2, 3, some 9,
        [true, true], true⟩).2.2.audioLevel = 0
    ∧ (onStopHandler id ⟨[[1, 2], [3]], some "audio/mp4", some 5, 1/2, 3, some 9,
        [true, true], true⟩).2.2.tracksLive = [true, true].map (fun _ => false)
    ∧ (onStopHandler id ⟨[[1, 2], [3]], some "audio/mp4", some 5, 1/2, 3, some 9,
        [true, true], true⟩).2.2.isRecording = false :=
  onStopHandler_spec id ⟨[[1, 2], [3]], some "audio/mp4", some 5, 1/2, 3, some 9,
    [true, true], true⟩

end TinyTranscriptor
